import Mathlib

/-!
Verification of the StrongARM latch tile generators in
`src/ucieanalog/src/strongarm/mod.rs` (with the driver/test crate
`src/strongarm1/src/lib.rs`).

The development shallowly embeds the three tile generators
(`StrongArmHalf::tile`, `StrongArm::tile`, `StrongArmWithOutputBuffers::tile`):

* the schematic side is embedded as a finite net type per tile level, a table
  of device instances with their terminal-to-net bindings (one entry per
  `generate_connected` call), and an explicit list of net-merge edges (one
  entry per `cell.connect` call, in source order).  Electrical connectivity is
  the reflexive-symmetric-transitive closure of the edge list, computed by a
  fuelled breadth-first search;
* the layout side is embedded as integer rectangles with the alignment
  operations the source invokes (`AlignMode::Left/Beneath/Bottom/ToTheRight/
  ToTheLeft/CenterVertical`, `Orientation::ReflectHoriz`), and the row
  placement loop as a fold over the ordered row list.

Device/tap primitives, the router and the via maker are external capabilities
(`StrongArmImpl`); the embedding keeps their parameters opaque and their
geometry abstract, exactly as the generator itself does.
-/

namespace StrongArmVerif

/-- The input pair device kind of the comparator (`InputKind` in
`src/ucieanalog/src/strongarm/mod.rs`). -/
inductive InputKind
  | N
  | P
  deriving DecidableEq

/-- Tile polarity selector passed to the process capability layer
(`ucieanalog::tiles::TileKind`, consumed opaquely by the generator). -/
inductive TileKind
  | N
  | P
  deriving DecidableEq

/-- Modelled from the spec: the process device-flavor selector
(`ucieanalog::tiles::MosKind`, not under `src/`); the spec only requires it to
be an opaque device-kind selector carried into each device's parameters.  The
test crate uses the `Lvt` flavor. -/
inductive MosKind
  | Lvt
  | Hvt
  deriving DecidableEq

/-- The parameter record of the StrongARM generators (`StrongArmParams`). -/
structure StrongArmParams where
  nmos_kind : MosKind
  pmos_kind : MosKind
  half_tail_w : Int
  input_pair_w : Int
  inv_input_w : Int
  inv_precharge_w : Int
  precharge_w : Int
  input_kind : InputKind
  deriving DecidableEq

/-- Parameters of one MOS device primitive, as built by
`MosTileParams::new(flavor, kind, w)` at the capability boundary. -/
structure MosTileParams where
  flavor : MosKind
  kind : TileKind
  w : Int
  deriving DecidableEq

/-- Parameters of one tap primitive, as built by
`TapTileParams::new(kind, n)` at the capability boundary. -/
structure TapTileParams where
  kind : TileKind
  n : Int
  deriving DecidableEq

/-- The parameter record used by both tests in `src/strongarm1/src/lib.rs`
(all five widths 2, `Lvt` flavors, input kind `N`). -/
def testParams : StrongArmParams :=
  ⟨.Lvt, .Lvt, 2, 2, 2, 2, 2, .N⟩

/-!
## Nets of the half-latch schematic

One constructor per distinct electrical net touched by `StrongArmHalf::tile`:
the ports of `StrongArmHalfIo`, the local signal `intp`, each element of every
helper signal array created by `cell.signal` (named below after the device
terminals bound to it by `generate_connected`), and the two tap terminals.
Comments give the source signal name.
-/

/-- A net of the half-latch tile schematic. -/
inductive HNet
  -- ports of `StrongArmHalfIo.top_io` (a `ClockedDiffComparatorIo`)
  | inputP
  | inputN
  | outputP
  | outputN
  | clock
  | vdd
  | vss
  -- remaining ports of `StrongArmHalfIo`
  | inputDP
  | inputDN
  | tailD
  -- `let intp = cell.signal("intp", Signal)`
  | intp
  -- `input_rail1` (2 wide) and `input_rail2` (1 wide): tail dummy terminals
  | tailDummySd0
  | tailDummySd1
  | tailDummyG
  -- `input_rail_tail1` (2 wide) and `io_stic` (1 wide): tail pair terminals
  -- (shared between both tail pair devices)
  | tailPairSd0
  | tailPairSd1
  | tailPairG
  -- `tail_int` (2 wide) and `iosti` (1 wide): input pair terminals (shared)
  | inPairSd0
  | inPairSd1
  | inPairG
  -- `input_rail3` (2 wide) and `input_rail4` (1 wide): input dummy terminals
  | inDummySd0
  | inDummySd1
  | inDummyG
  -- `intniostio` (2 wide) and `iostiop` (1 wide): first inverter-input device
  | invIn0Sd0
  | invIn0Sd1
  | invIn0G
  -- `intpiostio` (2 wide) and `iostion` (1 wide): second inverter-input device
  | invIn1Sd0
  | invIn1Sd1
  | invIn1G
  -- `input_rail5` (2 wide) and `input_rail6` (1 wide): inverter-input dummy
  | invInDummySd0
  | invInDummySd1
  | invInDummyG
  -- `precharge_rail_ios` (2 wide) and `iostio1` (1 wide): inverter-precharge
  -- pair terminals (shared between both devices)
  | invPcSd0
  | invPcSd1
  | invPcG
  -- `precharge_rail1` (2 wide) and `precharge_rail2` (1 wide)
  | invPcDummySd0
  | invPcDummySd1
  | invPcDummyG
  -- second `precharge_rail_ios` (1 wide!) and `iost_ioc` (1 wide):
  -- precharge pair A terminals (shared between both devices)
  | pcASd0
  | pcAG
  -- `precharge_rail3` (2 wide) and `precharge_rail4` (1 wide)
  | pcADummySd0
  | pcADummySd1
  | pcADummyG
  -- `precharge_rail_int` (2 wide) and `iostic1` (1 wide): precharge pair B
  -- terminals (shared between both devices)
  | pcBSd0
  | pcBSd1
  | pcBG
  -- `precharge_rail5` (2 wide) and `precharge_rail6` (1 wide)
  | pcBDummySd0
  | pcBDummySd1
  | pcBDummyG
  -- terminals of the two taps (`ptap.io().x`, `ntap.io().x`)
  | ptapX
  | ntapX
  deriving DecidableEq

/-- The values computed by the single `match self.0.input_kind` at the top of
`StrongArmHalf::tile` (lines 158-182): tile kinds, device flavors and the two
rails for the input-side and precharge-side devices. -/
structure PolarityAssign where
  input_kind : TileKind
  precharge_kind : TileKind
  input_flavor : MosKind
  precharge_flavor : MosKind
  input_rail : HNet
  precharge_rail : HNet
  deriving DecidableEq

/-- The branch on input polarity, evaluated once per tile build:
`InputKind::N` selects N-kind/nmos-flavor/VSS for the input side and
P-kind/pmos-flavor/VDD for the precharge side; `InputKind::P` swaps both. -/
def polaritySelect (p : StrongArmParams) : PolarityAssign :=
  match p.input_kind with
  | .N => ⟨.N, .P, p.nmos_kind, p.pmos_kind, .vss, .vdd⟩
  | .P => ⟨.P, .N, p.pmos_kind, p.nmos_kind, .vdd, .vss⟩

/-!
## Device instances of the half-latch
-/

/-- Names of the device instances generated by `StrongArmHalf::tile`, in
generation order. -/
inductive DevName
  | tailDummy
  | tailPair0
  | tailPair1
  | inputPair0
  | inputPair1
  | inputDummy
  | invIn0
  | invIn1
  | invInDummy
  | invPc0
  | invPc1
  | invPcDummy
  | pcA0
  | pcA1
  | pcADummy
  | pcB0
  | pcB1
  | pcBDummy
  deriving DecidableEq

/-- Whether a device instance is one of the six symmetry dummies. -/
def isDummy : DevName → Bool
  | .tailDummy => true
  | .inputDummy => true
  | .invInDummy => true
  | .invPcDummy => true
  | .pcADummy => true
  | .pcBDummy => true
  | _ => false

/-- One MOS device instance: its primitive parameters and the nets each of its
terminals is bound to by `generate_connected` (`MosTileIoSchematic`):
source/drain array `sd`, gate array `g`, bulk `b`. -/
structure MosDev where
  name : DevName
  params : MosTileParams
  sd : List HNet
  g : List HNet
  b : HNet
  deriving DecidableEq

/-- The device instances of `StrongArmHalf::tile` given the values of the
polarity branch, in generation order.  The `sd`/`g` lists are exactly the
signal arrays passed to `generate_connected`; devices of one pair that receive
clones of the same array share the corresponding nets.  Note that
`precharge_pair_a` is generated with a fresh one-element `precharge_rail_ios`
array as its `sd` binding. -/
def halfDevicesFrom (pa : PolarityAssign) (p : StrongArmParams) : List MosDev :=
  let half_tail_params : MosTileParams := ⟨pa.input_flavor, pa.input_kind, p.half_tail_w⟩
  let input_pair_params : MosTileParams := ⟨pa.input_flavor, pa.input_kind, p.input_pair_w⟩
  let inv_input_params : MosTileParams := ⟨pa.input_flavor, pa.input_kind, p.inv_input_w⟩
  let inv_precharge_params : MosTileParams :=
    ⟨pa.precharge_flavor, pa.precharge_kind, p.inv_precharge_w⟩
  let precharge_params : MosTileParams :=
    ⟨pa.precharge_flavor, pa.precharge_kind, p.precharge_w⟩
  [ ⟨.tailDummy, half_tail_params, [.tailDummySd0, .tailDummySd1], [.tailDummyG], pa.input_rail⟩,
    ⟨.tailPair0, half_tail_params, [.tailPairSd0, .tailPairSd1], [.tailPairG], pa.input_rail⟩,
    ⟨.tailPair1, half_tail_params, [.tailPairSd0, .tailPairSd1], [.tailPairG], pa.input_rail⟩,
    ⟨.inputPair0, input_pair_params, [.inPairSd0, .inPairSd1], [.inPairG], pa.input_rail⟩,
    ⟨.inputPair1, input_pair_params, [.inPairSd0, .inPairSd1], [.inPairG], pa.input_rail⟩,
    ⟨.inputDummy, input_pair_params, [.inDummySd0, .inDummySd1], [.inDummyG], pa.input_rail⟩,
    ⟨.invIn0, inv_input_params, [.invIn0Sd0, .invIn0Sd1], [.invIn0G], pa.input_rail⟩,
    ⟨.invIn1, inv_input_params, [.invIn1Sd0, .invIn1Sd1], [.invIn1G], pa.input_rail⟩,
    ⟨.invInDummy, inv_input_params, [.invInDummySd0, .invInDummySd1], [.invInDummyG],
      pa.input_rail⟩,
    ⟨.invPc0, inv_precharge_params, [.invPcSd0, .invPcSd1], [.invPcG], pa.precharge_rail⟩,
    ⟨.invPc1, inv_precharge_params, [.invPcSd0, .invPcSd1], [.invPcG], pa.precharge_rail⟩,
    ⟨.invPcDummy, inv_precharge_params, [.invPcDummySd0, .invPcDummySd1], [.invPcDummyG],
      pa.precharge_rail⟩,
    ⟨.pcA0, precharge_params, [.pcASd0], [.pcAG], pa.precharge_rail⟩,
    ⟨.pcA1, precharge_params, [.pcASd0], [.pcAG], pa.precharge_rail⟩,
    ⟨.pcADummy, precharge_params, [.pcADummySd0, .pcADummySd1], [.pcADummyG],
      pa.precharge_rail⟩,
    ⟨.pcB0, precharge_params, [.pcBSd0, .pcBSd1], [.pcBG], pa.precharge_rail⟩,
    ⟨.pcB1, precharge_params, [.pcBSd0, .pcBSd1], [.pcBG], pa.precharge_rail⟩,
    ⟨.pcBDummy, precharge_params, [.pcBDummySd0, .pcBDummySd1], [.pcBDummyG],
      pa.precharge_rail⟩ ]

/-- The device instances of `StrongArmHalf::tile`: the polarity branch is
evaluated once and its result used for every device. -/
def halfDevices (p : StrongArmParams) : List MosDev :=
  halfDevicesFrom (polaritySelect p) p

/-- The tap instances of `StrongArmHalf::tile`: a P tap and an N tap, both of
width 3, independent of the input polarity (lines 230-231). -/
def halfTaps : List TapTileParams :=
  [⟨.P, 3⟩, ⟨.N, 3⟩]

/-- The net-merge edges of `StrongArmHalf::tile`: one entry per `cell.connect`
call, in source order (source line numbers in the comments).  `tail` stands
for the `tail_d` port and `intn` for the `input_d.n` port, exactly as the
local bindings at lines 191-192. -/
def halfConnects (p : StrongArmParams) : List (HNet × HNet) :=
  let pa := polaritySelect p
  let irail := pa.input_rail
  let prail := pa.precharge_rail
  [ (HNet.tailDummySd0, irail),                 -- 205
    (HNet.tailDummySd1, irail),                 -- 206
    (HNet.tailDummyG, irail),                   -- 207
    (HNet.tailPairSd0, irail),                  -- 223
    (HNet.tailPairSd1, HNet.tailD),                 -- 224
    (HNet.tailPairG, HNet.clock),                   -- 225
    (HNet.tailPairSd0, irail),                  -- 226
    (HNet.tailPairSd1, HNet.tailD),                 -- 227
    (HNet.tailPairG, HNet.clock),                   -- 228
    (HNet.ptapX, HNet.vss),                         -- 232
    (HNet.ntapX, HNet.vdd),                         -- 233
    (HNet.inPairSd0, HNet.tailD),                   -- 249
    (HNet.inPairSd1, HNet.inputDN),                 -- 250
    (HNet.tailPairG, HNet.inputP),                  -- 251 (`tail_pair[0].io().g[0]`)
    (HNet.inPairSd0, HNet.tailD),                   -- 252
    (HNet.inPairSd1, HNet.intp),                    -- 253
    (HNet.tailPairG, HNet.inputN),                  -- 254 (`tail_pair[1].io().g[0]`)
    (HNet.inDummySd0, irail),                   -- 267
    (HNet.inDummySd1, irail),                   -- 268
    (HNet.tailDummyG, irail),                   -- 269 (`tail_dummy.io().g[0]`)
    (HNet.invIn0Sd0, HNet.inputDN),                 -- 295
    (HNet.invIn0Sd1, HNet.outputN),                 -- 296
    (HNet.invIn0G, HNet.outputP),                   -- 297
    (HNet.invIn1Sd0, HNet.intp),                    -- 298
    (HNet.invIn1Sd1, HNet.outputP),                 -- 299
    (HNet.invIn1G, HNet.outputN),                   -- 300
    (HNet.invInDummySd0, irail),                -- 314
    (HNet.invInDummySd1, irail),                -- 315
    (HNet.invInDummyG, irail),                  -- 316
    (HNet.invPcSd0, prail),                     -- 333
    (HNet.invPcSd1, HNet.outputN),                  -- 334
    (HNet.invPcG, HNet.outputP),                    -- 335
    (HNet.invPcSd0, prail),                     -- 336
    (HNet.invPcSd1, HNet.outputP),                  -- 337
    (HNet.invPcG, HNet.outputN),                    -- 338
    (HNet.invPcDummySd0, prail),                -- 351
    (HNet.invPcDummySd1, prail),                -- 352
    (HNet.invPcDummyG, prail),                  -- 353
    (HNet.invPcSd0, prail),                     -- 371 (`inv_precharge_pair[0]`!)
    (HNet.invPcSd1, HNet.outputN),                  -- 372
    (HNet.invPcG, HNet.clock),                      -- 373
    (HNet.invPcSd0, prail),                     -- 374 (`inv_precharge_pair[1]`!)
    (HNet.invPcSd1, HNet.outputP),                  -- 375
    (HNet.invPcG, HNet.clock),                      -- 376
    (HNet.pcADummySd0, prail),                  -- 389
    (HNet.pcADummySd1, prail),                  -- 390
    (HNet.pcADummyG, prail),                    -- 391
    (HNet.pcBSd0, prail),                       -- 407
    (HNet.pcBSd1, HNet.inputDN),                    -- 408
    (HNet.pcBG, HNet.clock),                        -- 409
    (HNet.pcBSd0, prail),                       -- 410
    (HNet.pcBSd1, HNet.intp),                       -- 411
    (HNet.pcBG, HNet.clock),                        -- 412
    (HNet.pcBDummySd0, prail),                  -- 425
    (HNet.pcBDummySd1, prail),                  -- 426
    (HNet.pcBDummyG, prail) ]                   -- 427

/-!
## Electrical connectivity

Connectivity is the equivalence closure of the edge list, computed by a
fuelled breadth-first search; the fuel bound `4 * |edges| + 8` exceeds the
total number of node pushes (`1 + 2 * |edges|`), so the search always runs to
completion.
-/

/-- Neighbors of a node in an undirected edge list. -/
def neighborsOf {α : Type} [DecidableEq α] (es : List (α × α)) (x : α) : List α :=
  es.foldr
    (fun e acc =>
      if e.1 = x then e.2 :: acc else if e.2 = x then e.1 :: acc else acc)
    []

/-- Fuelled breadth-first search accumulating the visited set. -/
def bfsAux {α : Type} [DecidableEq α] (es : List (α × α)) :
    Nat → List α → List α → List α
  | 0, _, vis => vis
  | _ + 1, [], vis => vis
  | n + 1, x :: rest, vis =>
    if x ∈ vis then bfsAux es n rest vis
    else bfsAux es n (neighborsOf es x ++ rest) (x :: vis)

/-- All nets reachable from `a` through the edge list (including `a`). -/
def reachSet {α : Type} [DecidableEq α] (es : List (α × α)) (a : α) : List α :=
  bfsAux es (4 * es.length + 8) [a] []

/-- Whether nets `a` and `b` are electrically connected: equal, or joined by a
chain of merge edges. -/
def connB {α : Type} [DecidableEq α] (es : List (α × α)) (a b : α) : Bool :=
  (reachSet es a).any (fun x => decide (x = b))


/-!
## The full latch (`StrongArm::tile`)

`StrongArm::tile` declares two fresh nets (`tail_d`, `input_d`), builds one
`StrongArmHalfIoSchematic` record `conn` binding the half's `top_io` to its
own io and the remaining ports to the fresh nets, and generates both halves
with `conn` (the second with a clone of it).  At the parent level the two half
instances therefore share every port net, while each instance keeps its own
copies of the half's internal nets.
-/

/-- Whether a half-latch net is a port of `StrongArmHalfIo` (bound by the
parent through `conn`) rather than an internal net of the half. -/
def isPortNet : HNet → Bool
  | .inputP => true
  | .inputN => true
  | .outputP => true
  | .outputN => true
  | .clock => true
  | .vdd => true
  | .vss => true
  | .inputDP => true
  | .inputDN => true
  | .tailD => true
  | _ => false

/-- A net of the full-latch tile: either a net shared through the half's port
interface (the parent's io nets plus the fresh `tail_d`/`input_d` nets), or an
internal net of one of the two half instances (`right = false` is the left
half, `right = true` the reflected right half). -/
inductive FNet
  | shared (n : HNet)
  | inst (right : Bool) (n : HNet)
  deriving DecidableEq

/-- Interpretation of a half-latch net inside half instance `r` of the full
latch: port nets map to the shared parent nets, internal nets stay private to
the instance. -/
def liftNet (r : Bool) (n : HNet) : FNet :=
  if isPortNet n then .shared n else .inst r n

/-- The net-merge edges of `StrongArm::tile`: the edges contributed by the two
half instances, both generated from the same parameter record and connected
through the same `conn` record. -/
def fullConnects (p : StrongArmParams) : List (FNet × FNet) :=
  (halfConnects p).map (fun e => (liftNet false e.1, liftNet false e.2)) ++
    (halfConnects p).map (fun e => (liftNet true e.1, liftNet true e.2))

/-!
## Layout port merges of the half-latch

Lines 495-512 of `StrongArmHalf::tile`: the layout ports take their geometry
from specific instance terminals (`set_primary` for the two rails from the tap
terminals, `merge` for the signal ports from MOS terminals).
-/

/-- The ports of `StrongArmHalfIo`, as layout ports. -/
inductive HalfPort
  | inputP
  | inputN
  | outputP
  | outputN
  | clock
  | vdd
  | vss
  | inputDP
  | inputDN
  | tailD
  deriving DecidableEq

/-- A terminal selector on a device or tap instance. -/
inductive TermSel
  | sd0
  | sd1
  | g0
  | tapTerm
  deriving DecidableEq

/-- Instances whose layout geometry is referenced by the port merges: the MOS
devices and the two taps. -/
inductive InstName
  | mos (d : DevName)
  | ptap
  | ntap
  deriving DecidableEq

/-- A reference to one instance terminal's layout geometry. -/
structure TermRef where
  inst : InstName
  sel : TermSel
  deriving DecidableEq

/-- The `set_primary` assignments of the half-latch layout (lines 495-496):
the VDD port's primary geometry comes from the N tap, the VSS port's from the
P tap. -/
def halfLayoutPrimaries : List (HalfPort × TermRef) :=
  [ (HalfPort.vdd, ⟨InstName.ntap, TermSel.tapTerm⟩),
    (HalfPort.vss, ⟨InstName.ptap, TermSel.tapTerm⟩) ]

/-- The `merge` calls of the half-latch layout (lines 497-512), in source
order. -/
def halfLayoutMerges : List (HalfPort × TermRef) :=
  [ (HalfPort.inputDN, ⟨InstName.mos DevName.inputPair0, TermSel.sd0⟩),
    (HalfPort.inputDP, ⟨InstName.mos DevName.inputPair1, TermSel.sd1⟩),
    (HalfPort.tailD, ⟨InstName.mos DevName.tailPair0, TermSel.sd1⟩),
    (HalfPort.clock, ⟨InstName.mos DevName.tailPair0, TermSel.g0⟩),
    (HalfPort.inputP, ⟨InstName.mos DevName.inputPair0, TermSel.g0⟩),
    (HalfPort.inputN, ⟨InstName.mos DevName.inputPair1, TermSel.g0⟩),
    (HalfPort.outputP, ⟨InstName.mos DevName.invIn1, TermSel.sd1⟩),
    (HalfPort.outputN, ⟨InstName.mos DevName.invIn0, TermSel.sd1⟩) ]

/-- Whether an instance is one of the six symmetry dummies. -/
def isDummyInst : InstName → Bool
  | .mos d => isDummy d
  | _ => false

/-- The terminal nets of the six dummy devices (their `sd` arrays, gate
arrays; the bulk of each dummy is bound directly to the corresponding rail
net). -/
def halfDummyTerms : List HNet :=
  [ HNet.tailDummySd0, HNet.tailDummySd1, HNet.tailDummyG,
    HNet.inDummySd0, HNet.inDummySd1, HNet.inDummyG,
    HNet.invInDummySd0, HNet.invInDummySd1, HNet.invInDummyG,
    HNet.invPcDummySd0, HNet.invPcDummySd1, HNet.invPcDummyG,
    HNet.pcADummySd0, HNet.pcADummySd1, HNet.pcADummyG,
    HNet.pcBDummySd0, HNet.pcBDummySd1, HNet.pcBDummyG ]

/-- The functional (non-rail) port nets of the half-latch. -/
def functionalPortNets : List HNet :=
  [ HNet.inputP, HNet.inputN, HNet.outputP, HNet.outputN, HNet.clock,
    HNet.inputDP, HNet.inputDN, HNet.tailD ]

/-!
## Geometry

Rectangles in the tile's integer (LCM-grid) coordinates, and the alignment
operations used by the generators.  The alignment semantics are modelled from
the spec (the `substrate` geometry library is an external collaborator): each
mode translates the aligned rectangle so that one of its edges (or its
vertical center) coincides with the reference rectangle's, shifted by the
offset.
-/

/-- An axis-aligned rectangle: `x0 ≤ x1` is left/right, `y0 ≤ y1` is
bottom/top. -/
@[ext]
structure Rect where
  x0 : Int
  y0 : Int
  x1 : Int
  y1 : Int
  deriving DecidableEq

/-- Width of a rectangle. -/
def Rect.w (r : Rect) : Int := r.x1 - r.x0

/-- Height of a rectangle. -/
def Rect.h (r : Rect) : Int := r.y1 - r.y0

/-- Translate a rectangle. -/
def translateR (r : Rect) (dx dy : Int) : Rect :=
  ⟨r.x0 + dx, r.y0 + dy, r.x1 + dx, r.y1 + dy⟩

/-- Modelled from the spec: `AlignMode::Left` — translate `r` horizontally so
its left edge sits at `o`'s left edge plus the offset. -/
def alignLeft (r o : Rect) (off : Int) : Rect :=
  translateR r (o.x0 + off - r.x0) 0

/-- Modelled from the spec: `AlignMode::Beneath` — translate `r` vertically so
its top edge sits at `o`'s bottom edge plus the offset (placed directly
beneath `o`). -/
def alignBeneath (r o : Rect) (off : Int) : Rect :=
  translateR r 0 (o.y0 + off - r.y1)

/-- Modelled from the spec: `AlignMode::Bottom` — translate `r` vertically so
its bottom edge sits at `o`'s bottom edge plus the offset. -/
def alignBottom (r o : Rect) (off : Int) : Rect :=
  translateR r 0 (o.y0 + off - r.y0)

/-- Modelled from the spec: `AlignMode::ToTheRight` — translate `r`
horizontally so its left edge sits at `o`'s right edge plus the offset
(placed immediately to the right of `o` when the offset is zero). -/
def alignToTheRight (r o : Rect) (off : Int) : Rect :=
  translateR r (o.x1 + off - r.x0) 0

/-- Modelled from the spec: `AlignMode::ToTheLeft` — translate `r`
horizontally so its right edge sits at `o`'s left edge plus the offset. -/
def alignToTheLeft (r o : Rect) (off : Int) : Rect :=
  translateR r (o.x0 + off - r.x1) 0

/-- Modelled from the spec: `AlignMode::CenterVertical` — translate `r`
vertically so its vertical center coincides with `o`'s (up to the grid
rounding of the halved difference) plus the offset. -/
def alignCenterVertical (r o : Rect) (off : Int) : Rect :=
  translateR r 0 ((o.y0 + o.y1 - (r.y0 + r.y1)) / 2 + off)

/-- Modelled from the spec: `Orientation::ReflectHoriz` — reflect a rectangle
across the vertical axis. -/
def reflectHoriz (r : Rect) : Rect :=
  ⟨-r.x1, r.y0, -r.x0, r.y1⟩

/-!
## Row placement (`StrongArmHalf::tile`, lines 429-456)
-/

/-- The rectangles of one row's devices: the symmetry dummy and the two
devices of the MOS pair. -/
@[ext]
structure RowDevs where
  dummy : Rect
  m0 : Rect
  m1 : Rect
  deriving DecidableEq

/-- One iteration of the placement loop (lines 444-453): the dummy is aligned
`Left` and `Beneath` to the cursor `prev`; the cursor advances to the dummy's
new bounds; the first pair device is aligned `Bottom` and `ToTheRight` to the
cursor; the second pair device is aligned `Bottom` and `ToTheRight` to the
first device's new bounds. -/
def placeRowCode (prev : Rect) (row : RowDevs) : RowDevs :=
  let d := alignBeneath (alignLeft row.dummy prev 0) prev 0
  let p0 := alignToTheRight (alignBottom row.m0 d 0) d 0
  let p1 := alignToTheRight (alignBottom row.m1 p0 0) p0 0
  ⟨d, p0, p1⟩

/-- The placement loop (placements): a strictly sequential fold over the row
list, starting from the initial cursor, each iteration advancing the cursor to
the placed dummy's bounds. -/
def placeRowsList (prev : Rect) : List RowDevs → List RowDevs
  | [] => []
  | row :: rest =>
    placeRowCode prev row :: placeRowsList (placeRowCode prev row).dummy rest

/-- The placement loop (final cursor): the value of `prev` after the loop, the
bounds of the last placed dummy (or the initial cursor for an empty list). -/
def placeRowsFinal (prev : Rect) : List RowDevs → Rect
  | [] => prev
  | row :: rest => placeRowsFinal (placeRowCode prev row).dummy rest

/-- Modelled from the spec: the claimed placement of one row, in closed form —
the dummy occupies the rectangle of its own size whose top-left corner is the
cursor's bottom-left corner; the first pair device sits immediately to the
right of the dummy, bottom-aligned; the second immediately to the right of the
first, bottom-aligned. -/
def placeRowSpec (cursor : Rect) (row : RowDevs) : RowDevs :=
  let d : Rect :=
    ⟨cursor.x0, cursor.y0 - row.dummy.h, cursor.x0 + row.dummy.w, cursor.y0⟩
  let p0 : Rect := ⟨d.x1, d.y0, d.x1 + row.m0.w, d.y0 + row.m0.h⟩
  let p1 : Rect := ⟨p0.x1, p0.y0, p0.x1 + row.m1.w, p0.y0 + row.m1.h⟩
  ⟨d, p0, p1⟩

/-- Modelled from the spec: the claimed placement of the whole row list — a
sequential recursion placing each row beneath the cursor and advancing the
cursor to the placed dummy, with no special case for any row. -/
def placeRowsSpec (cursor : Rect) : List RowDevs → List RowDevs
  | [] => []
  | row :: rest =>
    let pr := placeRowSpec cursor row
    pr :: placeRowsSpec pr.dummy rest

/-- The six functional rows of the half-latch, as listed in the `rows` array
(lines 431-438), top-to-bottom. -/
inductive RowLabel
  | pcA
  | pcB
  | invPc
  | invIn
  | inPair
  | tailRow
  deriving DecidableEq

/-- The `rows` array of `StrongArmHalf::tile` in its declaration order. -/
def rowsBase : List RowLabel :=
  [RowLabel.pcA, RowLabel.pcB, RowLabel.invPc, RowLabel.invIn,
    RowLabel.inPair, RowLabel.tailRow]

/-- The row order actually placed: the declared order for input kind `N`,
reversed for input kind `P` (lines 440-442). -/
def rowsFor (k : InputKind) : List RowLabel :=
  match k with
  | .N => rowsBase
  | .P => rowsBase.reverse

/-- The (unplaced) device rectangles of the half-latch: one `RowDevs` per
functional row, plus the rectangles of the two taps.  The generator treats all
of these as opaque units delivered by the process capability layer. -/
structure HalfSizes where
  pcA : RowDevs
  pcB : RowDevs
  invPc : RowDevs
  invIn : RowDevs
  inPair : RowDevs
  tailRow : RowDevs
  ntapR : Rect
  ptapR : Rect
  deriving DecidableEq

/-- The row sizes selected by a row label. -/
def rowSizes (s : HalfSizes) : RowLabel → RowDevs
  | .pcA => s.pcA
  | .pcB => s.pcB
  | .invPc => s.invPc
  | .invIn => s.invIn
  | .inPair => s.inPair
  | .tailRow => s.tailRow

/-- The result of the half-latch placement: the placed rows (in placement
order), the final cursor, and the placed P tap. -/
structure HalfPlacement where
  rows : List RowDevs
  lastCursor : Rect
  ptapPlaced : Rect
  deriving DecidableEq

/-- The half-latch placement (lines 429-456): the cursor starts at the N tap's
bounds, the row loop places the (possibly reversed) row list, and the P tap is
finally aligned `Left` and `Beneath` to the last cursor. -/
def halfPlacement (k : InputKind) (s : HalfSizes) : HalfPlacement :=
  let fin := placeRowsFinal s.ntapR ((rowsFor k).map (rowSizes s))
  ⟨placeRowsList s.ntapR ((rowsFor k).map (rowSizes s)), fin,
    alignBeneath (alignLeft s.ptapR fin 0) fin 0⟩

/-!
## The full latch (`StrongArm::tile`, lines 559-633): instances
-/

/-- The schematic binding record built by `StrongArm::tile` (the
`StrongArmHalfIoSchematic` value `conn`, lines 571-575): each port of the
half-latch io is bound to a parent-level net — the parent's own io nets for
`top_io`, the fresh `input_d`/`tail_d` nets for the rest. -/
structure HalfBinding where
  inputP : FNet
  inputN : FNet
  outputP : FNet
  outputN : FNet
  clock : FNet
  vdd : FNet
  vss : FNet
  inputDP : FNet
  inputDN : FNet
  tailD : FNet
  deriving DecidableEq

/-- The single `conn` record of `StrongArm::tile`: the half's `top_io` ports
are the parent's io nets, and `input_d`/`tail_d` are the two fresh nets —
every signal has exactly one parent-level net. -/
def strongArmConn : HalfBinding :=
  ⟨.shared HNet.inputP, .shared HNet.inputN, .shared HNet.outputP,
    .shared HNet.outputN, .shared HNet.clock, .shared HNet.vdd,
    .shared HNet.vss, .shared HNet.inputDP, .shared HNet.inputDN,
    .shared HNet.tailD⟩

/-- One half-latch instance inside the full latch: its parameter record, its
port binding and its orientation. -/
structure HalfInstance where
  params : StrongArmParams
  conn : HalfBinding
  reflected : Bool
  deriving DecidableEq

/-- The left half instance (line 576): parameters `self.0`, binding `conn`,
unreflected. -/
def strongArmLeftHalf (p : StrongArmParams) : HalfInstance :=
  ⟨p, strongArmConn, false⟩

/-- The right half instance (lines 578-581): parameters `self.0`, the same
binding `conn`, reflected horizontally. -/
def strongArmRightHalf (p : StrongArmParams) : HalfInstance :=
  ⟨p, strongArmConn, true⟩

/-- The placed bounds of the right half: the half tile's bounds are reflected
horizontally, then aligned `ToTheRight` of the left half with offset 0
(lines 578-581).  Both instances are generated from the same block, so both
start from the same bounds `halfR`; the left half stays where generated. -/
def strongArmRightRect (halfR : Rect) : Rect :=
  alignToTheRight (reflectHoriz halfR) halfR 0

/-!
## The buffered latch (`StrongArmWithOutputBuffers::tile`, lines 690-761)
-/

/-- Modelled from the spec: the parameter record of the single-stage inverting
buffer (`crate::buffer::InverterParams`, not under `src/`); the buffered-latch
generator carries it opaquely into both buffer instances. -/
structure InverterParams where
  strength : Int
  deriving DecidableEq

/-- A net of the buffered-latch tile: the generator's own io nets plus the
fresh internal differential pair `out` (line 701). -/
inductive BNet
  | ioInputP
  | ioInputN
  | ioOutputP
  | ioOutputN
  | ioClock
  | ioVdd
  | ioVss
  | outP
  | outN
  deriving DecidableEq

/-- The binding of the inner full latch (`ClockedDiffComparatorIoSchematic`,
lines 703-712): input and clock and rails from the buffered tile's io, output
bound to the fresh internal `out` pair. -/
structure ComparatorConn where
  inputP : BNet
  inputN : BNet
  outputP : BNet
  outputN : BNet
  clock : BNet
  vdd : BNet
  vss : BNet
  deriving DecidableEq

/-- The binding of one buffer (`BufferIoSchematic`). -/
structure BufferConn where
  din : BNet
  dout : BNet
  vdd : BNet
  vss : BNet
  deriving DecidableEq

/-- The inner full latch binding (lines 703-712). -/
def bufferedSaConn : ComparatorConn :=
  ⟨.ioInputP, .ioInputN, .outP, .outN, .ioClock, .ioVdd, .ioVss⟩

/-- The right buffer's binding (lines 714-723): its input is the latch's
positive internal output `out.p`, its output the external negative output. -/
def bufferedRightBufConn : BufferConn :=
  ⟨.outP, .ioOutputN, .ioVdd, .ioVss⟩

/-- The left buffer's binding (lines 727-736): its input is the latch's
negative internal output `out.n`, its output the external positive output. -/
def bufferedLeftBufConn : BufferConn :=
  ⟨.outN, .ioOutputP, .ioVdd, .ioVss⟩

/-- One buffer instance of the buffered latch. -/
structure BufferInstance where
  params : InverterParams
  conn : BufferConn
  reflected : Bool
  deriving DecidableEq

/-- The right buffer instance: parameters `self.1`, unreflected. -/
def bufferedRightBuf (bp : InverterParams) : BufferInstance :=
  ⟨bp, bufferedRightBufConn, false⟩

/-- The left buffer instance: parameters `self.1`, reflected horizontally
(line 737). -/
def bufferedLeftBuf (bp : InverterParams) : BufferInstance :=
  ⟨bp, bufferedLeftBufConn, true⟩

/-- The placed bounds of the right buffer (lines 714-725): vertically centered
on the latch, then aligned `ToTheRight` of it with offset `BUFFER_SPACING`.
`sa` is the latch's bounds, `buf` the buffer tile's bounds, `spacing` the
implementation's `BUFFER_SPACING` constant. -/
def bufferedRightRect (sa buf : Rect) (spacing : Int) : Rect :=
  alignToTheRight (alignCenterVertical buf sa 0) sa spacing

/-- The placed bounds of the left buffer (lines 727-739): reflected
horizontally, vertically centered on the latch, then aligned `ToTheLeft` of it
with offset `-BUFFER_SPACING`. -/
def bufferedLeftRect (sa buf : Rect) (spacing : Int) : Rect :=
  alignToTheLeft (alignCenterVertical (reflectHoriz buf) sa 0) sa (-spacing)

/-- The layout-port sources of the buffered latch's outputs (lines 754-755):
the external positive output takes the left buffer's `dout` geometry, the
external negative output the right buffer's `dout` geometry. -/
def bufferedOutputSources : List (BNet × BufferConn) :=
  [ (BNet.ioOutputP, bufferedLeftBufConn),
    (BNet.ioOutputN, bufferedRightBufConn) ]

/-!
## Helper lookups
-/

/-- The device instance of the half-latch with the given name. -/
def devOf (p : StrongArmParams) (n : DevName) : Option MosDev :=
  (halfDevices p).find? (fun d => decide (d.name = n))

/-- A canonical parameter record with the given input kind; the net topology
of the half-latch depends on the parameters only through the input kind, so
facts about `halfConnects (paramsK k)` transfer definitionally to
`halfConnects p` for every `p` with `p.input_kind = k`. -/
def paramsK (k : InputKind) : StrongArmParams :=
  ⟨.Lvt, .Lvt, 0, 0, 0, 0, 0, k⟩


/-- A zero default row used with `List.getD` when indexing placed rows. -/
def dRow : RowDevs := ⟨⟨0, 0, 0, 0⟩, ⟨0, 0, 0, 0⟩, ⟨0, 0, 0, 0⟩⟩

/-- The total height of the six row dummies of a half-latch. -/
def totalDummyH (s : HalfSizes) : Int :=
  s.pcA.dummy.h + s.pcB.dummy.h + s.invPc.dummy.h + s.invIn.dummy.h +
    s.inPair.dummy.h + s.tailRow.dummy.h

/-- Reflection of a rectangle across the horizontal axis `2 y = c` (the
vertical mirror used to compare the two polarities' row stacks). -/
def mirrorYAt (c : Int) (r : Rect) : Rect :=
  ⟨r.x0, c - r.y1, r.x1, c - r.y0⟩

/-- The horizontal extent of a placed row, from the dummy's left edge to the
second pair device's right edge. -/
def rowWidth (r : RowDevs) : Int := r.m1.x1 - r.dummy.x0

/-- A concrete unit row used as a witness input. -/
def dRow1 : RowDevs := ⟨⟨0, 0, 1, 1⟩, ⟨0, 0, 1, 1⟩, ⟨0, 0, 1, 1⟩⟩

/-- A concrete half-latch size assignment (unit rows, 3-wide taps) used as a
witness input. -/
def sW : HalfSizes :=
  ⟨dRow1, dRow1, dRow1, dRow1, dRow1, dRow1, ⟨0, 0, 3, 1⟩, ⟨0, 0, 3, 1⟩⟩

/-!
## Claims
-/

/-- Topology facts of the half-latch netlist at the canonical parameter
records, one case per input kind, established by evaluation. -/
theorem halfTopologyFactsK :
    ∀ k : InputKind,
      (connB (halfConnects (paramsK k)) HNet.tailPairG HNet.clock = true ∧
        connB (halfConnects (paramsK k)) HNet.tailPairSd0 (polaritySelect (paramsK k)).input_rail = true ∧
        connB (halfConnects (paramsK k)) HNet.tailPairSd1 HNet.tailD = true ∧
        connB (halfConnects (paramsK k)) HNet.inPairSd0 HNet.tailD = true) ∧
      (connB (halfConnects (paramsK k)) HNet.inPairSd1 HNet.inputDN = true ∧
        connB (halfConnects (paramsK k)) HNet.inPairSd1 HNet.intp = true) ∧
      (connB (halfConnects (paramsK k)) HNet.invIn0G HNet.outputP = true ∧
        connB (halfConnects (paramsK k)) HNet.invIn0Sd1 HNet.outputN = true ∧
        connB (halfConnects (paramsK k)) HNet.invIn1G HNet.outputN = true ∧
        connB (halfConnects (paramsK k)) HNet.invIn1Sd1 HNet.outputP = true) ∧
      (connB (halfConnects (paramsK k)) HNet.pcBG HNet.clock = true ∧
        connB (halfConnects (paramsK k)) HNet.pcBSd0 (polaritySelect (paramsK k)).precharge_rail = true ∧
        connB (halfConnects (paramsK k)) HNet.pcBSd1 HNet.inputDN = true ∧
        connB (halfConnects (paramsK k)) HNet.pcBSd1 HNet.intp = true) ∧
      (connB (halfConnects (paramsK k)) HNet.pcAG HNet.clock = false ∧
        connB (halfConnects (paramsK k)) HNet.pcASd0 HNet.outputP = false ∧
        connB (halfConnects (paramsK k)) HNet.pcASd0 HNet.outputN = false ∧
        connB (halfConnects (paramsK k)) HNet.pcASd0 (polaritySelect (paramsK k)).precharge_rail = false) := by
  intro k
  cases k <;> decide

/-- C1: the half-latch topology, settled by evaluating the embedded netlist.
Most of the claimed topology holds: the tail devices are gated by the clock
and connect the input rail to the input pair's common node `tail_d`; the
input pair's drains feed the internal nodes; the inverter-input devices are
cross-coupled (gate to the opposite output, drain to their own output); and
the precharge-B devices are gated by the clock and connect the precharge rail
to the internal nodes.  But the claim's precharge-A conjunct FAILS: the
precharge-A devices' gate net is never connected to the clock, and their
source/drain net is never connected to the outputs or to the precharge rail —
the connect block at lines 371-376 re-targets `inv_precharge_pair` instead of
`precharge_pair_a`, so precharge-A is left floating on its fresh alias nets. -/
theorem c1_topology_precharge_a_floating :
    ∀ p : StrongArmParams,
      (connB (halfConnects p) HNet.tailPairG HNet.clock = true ∧
        connB (halfConnects p) HNet.tailPairSd0 (polaritySelect p).input_rail = true ∧
        connB (halfConnects p) HNet.tailPairSd1 HNet.tailD = true ∧
        connB (halfConnects p) HNet.inPairSd0 HNet.tailD = true) ∧
      (connB (halfConnects p) HNet.inPairSd1 HNet.inputDN = true ∧
        connB (halfConnects p) HNet.inPairSd1 HNet.intp = true) ∧
      (connB (halfConnects p) HNet.invIn0G HNet.outputP = true ∧
        connB (halfConnects p) HNet.invIn0Sd1 HNet.outputN = true ∧
        connB (halfConnects p) HNet.invIn1G HNet.outputN = true ∧
        connB (halfConnects p) HNet.invIn1Sd1 HNet.outputP = true) ∧
      (connB (halfConnects p) HNet.pcBG HNet.clock = true ∧
        connB (halfConnects p) HNet.pcBSd0 (polaritySelect p).precharge_rail = true ∧
        connB (halfConnects p) HNet.pcBSd1 HNet.inputDN = true ∧
        connB (halfConnects p) HNet.pcBSd1 HNet.intp = true) ∧
      (connB (halfConnects p) HNet.pcAG HNet.clock = false ∧
        connB (halfConnects p) HNet.pcASd0 HNet.outputP = false ∧
        connB (halfConnects p) HNet.pcASd0 HNet.outputN = false ∧
        connB (halfConnects p) HNet.pcASd0 (polaritySelect p).precharge_rail = false) := by
  intro p
  obtain ⟨nk, pk, w1, w2, w3, w4, w5, ik⟩ := p
  cases ik
  · exact halfTopologyFactsK InputKind.N
  · exact halfTopologyFactsK InputKind.P

/-- C2: at the full-latch level, with the parameter record used by the repo's
own tests, the claim FAILS: the clock port is electrically merged with both
input ports, and the two output ports are merged with each other (and with
the clock).  The tail pair's shared gate-alias net is connected to the clock
(lines 225/228) and then to `input.p`/`input.n` (lines 251/254, which address
`tail_pair` instead of `input_pair`), and the inverter-precharge pair's shared
gate-alias net is connected to both outputs (lines 335/338) and to the clock
(lines 373/376). -/
theorem c2_distinct_ports_share_net :
    connB (fullConnects testParams) (FNet.shared HNet.clock)
        (FNet.shared HNet.inputP) = true ∧
      connB (fullConnects testParams) (FNet.shared HNet.clock)
        (FNet.shared HNet.inputN) = true ∧
      connB (fullConnects testParams) (FNet.shared HNet.outputP)
        (FNet.shared HNet.outputN) = true ∧
      connB (fullConnects testParams) (FNet.shared HNet.clock)
        (FNet.shared HNet.outputP) = true := by
  exact ⟨by decide, by decide, by decide, by decide⟩

/-- Dummy-wiring facts of the half-latch netlist at the canonical parameter
records, one case per input kind, established by evaluation. -/
theorem halfDummyFactsK :
    ∀ k : InputKind,
      (connB (halfConnects (paramsK k)) HNet.tailDummySd0 (polaritySelect (paramsK k)).input_rail = true ∧
        connB (halfConnects (paramsK k)) HNet.tailDummySd1 (polaritySelect (paramsK k)).input_rail = true ∧
        connB (halfConnects (paramsK k)) HNet.tailDummyG (polaritySelect (paramsK k)).input_rail = true) ∧
      (connB (halfConnects (paramsK k)) HNet.inDummySd0 (polaritySelect (paramsK k)).input_rail = true ∧
        connB (halfConnects (paramsK k)) HNet.inDummySd1 (polaritySelect (paramsK k)).input_rail = true ∧
        connB (halfConnects (paramsK k)) HNet.inDummyG (polaritySelect (paramsK k)).input_rail = false) ∧
      (connB (halfConnects (paramsK k)) HNet.invInDummySd0 (polaritySelect (paramsK k)).input_rail = true ∧
        connB (halfConnects (paramsK k)) HNet.invInDummySd1 (polaritySelect (paramsK k)).input_rail = true ∧
        connB (halfConnects (paramsK k)) HNet.invInDummyG (polaritySelect (paramsK k)).input_rail = true) ∧
      (connB (halfConnects (paramsK k)) HNet.invPcDummySd0 (polaritySelect (paramsK k)).precharge_rail = true ∧
        connB (halfConnects (paramsK k)) HNet.invPcDummySd1 (polaritySelect (paramsK k)).precharge_rail = true ∧
        connB (halfConnects (paramsK k)) HNet.invPcDummyG (polaritySelect (paramsK k)).precharge_rail = true) ∧
      (connB (halfConnects (paramsK k)) HNet.pcADummySd0 (polaritySelect (paramsK k)).precharge_rail = true ∧
        connB (halfConnects (paramsK k)) HNet.pcADummySd1 (polaritySelect (paramsK k)).precharge_rail = true ∧
        connB (halfConnects (paramsK k)) HNet.pcADummyG (polaritySelect (paramsK k)).precharge_rail = true) ∧
      (connB (halfConnects (paramsK k)) HNet.pcBDummySd0 (polaritySelect (paramsK k)).precharge_rail = true ∧
        connB (halfConnects (paramsK k)) HNet.pcBDummySd1 (polaritySelect (paramsK k)).precharge_rail = true ∧
        connB (halfConnects (paramsK k)) HNet.pcBDummyG (polaritySelect (paramsK k)).precharge_rail = true) ∧
      (halfDummyTerms.all (fun t =>
        functionalPortNets.all (fun q => !connB (halfConnects (paramsK k)) t q)) = true) ∧
      (halfLayoutMerges.all (fun m => !isDummyInst m.2.inst) = true) := by
  intro k
  cases k <;> decide

/-- C3: the dummy-wiring claim, settled by evaluating the embedded netlist.
Five of the six dummies have every terminal tied to their rail, and no dummy
terminal reaches any functional net nor appears in the layout port merges.
But the claim FAILS on the input-pair dummy: its gate is bound to the fresh
one-element `input_rail` alias array and never connected to the rail — line
269 connects `tail_dummy`'s gate a second time instead of `input_dummy`'s —
so that gate is left floating. -/
theorem c3_input_dummy_gate_floating :
    ∀ p : StrongArmParams,
      (connB (halfConnects p) HNet.tailDummySd0 (polaritySelect p).input_rail = true ∧
        connB (halfConnects p) HNet.tailDummySd1 (polaritySelect p).input_rail = true ∧
        connB (halfConnects p) HNet.tailDummyG (polaritySelect p).input_rail = true) ∧
      (connB (halfConnects p) HNet.inDummySd0 (polaritySelect p).input_rail = true ∧
        connB (halfConnects p) HNet.inDummySd1 (polaritySelect p).input_rail = true ∧
        connB (halfConnects p) HNet.inDummyG (polaritySelect p).input_rail = false) ∧
      (connB (halfConnects p) HNet.invInDummySd0 (polaritySelect p).input_rail = true ∧
        connB (halfConnects p) HNet.invInDummySd1 (polaritySelect p).input_rail = true ∧
        connB (halfConnects p) HNet.invInDummyG (polaritySelect p).input_rail = true) ∧
      (connB (halfConnects p) HNet.invPcDummySd0 (polaritySelect p).precharge_rail = true ∧
        connB (halfConnects p) HNet.invPcDummySd1 (polaritySelect p).precharge_rail = true ∧
        connB (halfConnects p) HNet.invPcDummyG (polaritySelect p).precharge_rail = true) ∧
      (connB (halfConnects p) HNet.pcADummySd0 (polaritySelect p).precharge_rail = true ∧
        connB (halfConnects p) HNet.pcADummySd1 (polaritySelect p).precharge_rail = true ∧
        connB (halfConnects p) HNet.pcADummyG (polaritySelect p).precharge_rail = true) ∧
      (connB (halfConnects p) HNet.pcBDummySd0 (polaritySelect p).precharge_rail = true ∧
        connB (halfConnects p) HNet.pcBDummySd1 (polaritySelect p).precharge_rail = true ∧
        connB (halfConnects p) HNet.pcBDummyG (polaritySelect p).precharge_rail = true) ∧
      (halfDummyTerms.all (fun t =>
        functionalPortNets.all (fun q => !connB (halfConnects p) t q)) = true) ∧
      (halfLayoutMerges.all (fun m => !isDummyInst m.2.inst) = true) := by
  intro p
  obtain ⟨nk, pk, w1, w2, w3, w4, w5, ik⟩ := p
  cases ik
  · exact halfDummyFactsK InputKind.N
  · exact halfDummyFactsK InputKind.P

/-- C9: the end-to-end scenario with the test parameter record (all widths 2,
input kind `N`): the half-latch declares exactly six functional rows and
exactly six dummies (twelve functional pair devices), and its output ports
take their geometry from the drains (`sd[1]`) of the two inverter-input
devices — the positive output from the second device, the negative output from
the first — which are likewise the nets the schematic binds to the outputs. -/
theorem c9_half_latch_scenario :
    (rowsFor testParams.input_kind).length = 6 ∧
      ((halfDevices testParams).filter (fun d => isDummy d.name)).length = 6 ∧
      ((halfDevices testParams).filter (fun d => !isDummy d.name)).length = 12 ∧
      (devOf testParams DevName.invIn1).map (fun d => d.sd.getD 1 HNet.vss) =
        some HNet.invIn1Sd1 ∧
      (devOf testParams DevName.invIn0).map (fun d => d.sd.getD 1 HNet.vss) =
        some HNet.invIn0Sd1 ∧
      (HalfPort.outputP, (⟨InstName.mos DevName.invIn1, TermSel.sd1⟩ : TermRef)) ∈
        halfLayoutMerges ∧
      (HalfPort.outputN, (⟨InstName.mos DevName.invIn0, TermSel.sd1⟩ : TermRef)) ∈
        halfLayoutMerges ∧
      connB (halfConnects testParams) HNet.invIn1Sd1 HNet.outputP = true ∧
      connB (halfConnects testParams) HNet.invIn0Sd1 HNet.outputN = true := by
  exact ⟨by decide, by decide, by decide, by decide, by decide, by decide,
    by decide, by decide, by decide⟩

/-- Each loop iteration realizes the claimed closed-form row placement. -/
theorem placeRowCode_eq_spec (prev : Rect) (row : RowDevs) :
    placeRowCode prev row = placeRowSpec prev row := by
  ext <;>
    simp [placeRowCode, placeRowSpec, alignLeft, alignBeneath, alignBottom,
      alignToTheRight, translateR, Rect.w, Rect.h] <;>
    ring

/-- The whole placement loop realizes the claimed sequential row placement. -/
theorem placeRowsList_eq_spec :
    ∀ (rows : List RowDevs) (prev : Rect),
      placeRowsList prev rows = placeRowsSpec prev rows := by
  intro rows
  induction rows with
  | nil => intro prev; rfl
  | cons r rest ih =>
    intro prev
    show placeRowCode prev r :: placeRowsList (placeRowCode prev r).dummy rest =
      placeRowSpec prev r :: placeRowsSpec (placeRowSpec prev r).dummy rest
    rw [placeRowCode_eq_spec, ih]

/-- C4: row placement in `StrongArmHalf::tile` is exactly the claimed strictly
sequential fold — for every initial cursor and every row list, the loop's
placements coincide with the spec's closed-form sequential placement (dummy
left-aligned beneath the cursor, first pair device bottom-aligned immediately
right of the dummy, second immediately right of the first, cursor advancing to
the dummy's bounds); and the half-latch invokes that fold with the N tap's
bounds as the initial cursor, with no special-casing of any row. -/
theorem c4_row_placement_fold :
    (∀ (prev : Rect) (rows : List RowDevs),
        placeRowsList prev rows = placeRowsSpec prev rows) ∧
      ∀ (k : InputKind) (s : HalfSizes),
        (halfPlacement k s).rows =
          placeRowsSpec s.ntapR ((rowsFor k).map (rowSizes s)) := by
  constructor
  · intro prev rows
    exact placeRowsList_eq_spec rows prev
  · intro k s
    exact placeRowsList_eq_spec _ _

/-- In the polarity-N placement, each row's dummy sits directly beneath the
previous row's dummy. -/
theorem halfStackN :
    ∀ (s : HalfSizes) (i : Fin 5),
      ((halfPlacement InputKind.N s).rows.getD (i.val + 1) dRow).dummy.y1 =
        ((halfPlacement InputKind.N s).rows.getD i.val dRow).dummy.y0 := by
  intro s i
  fin_cases i <;>
    (simp [halfPlacement, placeRowsList, placeRowCode, rowsFor, rowsBase,
      rowSizes, alignLeft, alignBeneath, alignBottom, alignToTheRight,
      translateR, Rect.w, Rect.h, dRow]; try omega)

set_option maxHeartbeats 1600000 in
/-- The polarity-P placement is the exact vertical mirror of the polarity-N
placement: the row placed at position `5 - i` for P is the reflection, across
the horizontal axis `2 y = 2 ntap.y0 - H` (`H` the total dummy height), of the
row placed at position `i` for N. -/
theorem halfMirrorRows :
    ∀ (s : HalfSizes) (i : Fin 6),
      ((halfPlacement InputKind.P s).rows.getD (5 - i.val) dRow).dummy =
        mirrorYAt (2 * s.ntapR.y0 - totalDummyH s)
          (((halfPlacement InputKind.N s).rows.getD i.val dRow).dummy) := by
  intro s i
  fin_cases i <;>
    (simp [halfPlacement, placeRowsList, placeRowCode, rowsFor, rowsBase,
      rowSizes, totalDummyH, mirrorYAt, alignLeft, alignBeneath, alignBottom,
      alignToTheRight, translateR, Rect.w, Rect.h, dRow,
      Rect.mk.injEq]; try omega)

set_option maxHeartbeats 1600000 in
/-- Matching rows of the two polarities' placements have identical widths. -/
theorem halfMirrorWidths :
    ∀ (s : HalfSizes) (i : Fin 6),
      rowWidth ((halfPlacement InputKind.P s).rows.getD (5 - i.val) dRow) =
        rowWidth ((halfPlacement InputKind.N s).rows.getD i.val dRow) := by
  intro s i
  fin_cases i <;>
    (simp [halfPlacement, placeRowsList, placeRowCode, rowsFor, rowsBase,
      rowSizes, rowWidth, alignLeft, alignBeneath, alignBottom,
      alignToTheRight, translateR, Rect.w, Rect.h, dRow]; try omega)

set_option maxHeartbeats 3200000 in
/-- With nonnegative row heights of positive total, the two polarities'
placements are not translations of one another (row-for-row). -/
theorem halfNoTranslation :
    ∀ s : HalfSizes,
      (∀ l : RowLabel, 0 ≤ (rowSizes s l).dummy.h) →
      0 < totalDummyH s →
      ¬ ∃ dx dy : Int, ∀ i : Fin 6,
        ((halfPlacement InputKind.P s).rows.getD (5 - i.val) dRow).dummy =
          translateR
            (((halfPlacement InputKind.N s).rows.getD i.val dRow).dummy)
            dx dy := by
  intro s hnn hpos
  rintro ⟨dx, dy, hall⟩
  have h0 := hall ⟨0, by omega⟩
  have h5 := hall ⟨5, by omega⟩
  have ha := hnn RowLabel.pcA
  have hb := hnn RowLabel.pcB
  have hc := hnn RowLabel.invPc
  have hd := hnn RowLabel.invIn
  have he := hnn RowLabel.inPair
  have hf := hnn RowLabel.tailRow
  simp [halfPlacement, placeRowsList, placeRowCode, rowsFor, rowsBase,
    rowSizes, totalDummyH, alignLeft, alignBeneath, alignBottom,
    alignToTheRight, translateR, Rect.w, Rect.h, dRow, Rect.mk.injEq]
    at h0 h5 ha hb hc hd he hf hpos
  omega

/-- C5: the six functional rows are placed top-to-bottom in the fixed order
precharge-A, precharge-B, inverter-precharge, inverter-input, input-pair,
tail for input kind N; for input kind P the same row list is emitted in
exactly reversed order; and the two placements are geometric mirrors (exact
reflection across a fixed horizontal axis) with identical row widths, and —
whenever the rows have nonnegative heights of positive total — not
translations of one another. -/
theorem c5_row_order_mirror :
    rowsFor InputKind.N =
        [RowLabel.pcA, RowLabel.pcB, RowLabel.invPc, RowLabel.invIn,
          RowLabel.inPair, RowLabel.tailRow] ∧
      rowsFor InputKind.P = (rowsFor InputKind.N).reverse ∧
      (∀ (s : HalfSizes) (i : Fin 5),
        ((halfPlacement InputKind.N s).rows.getD (i.val + 1) dRow).dummy.y1 =
          ((halfPlacement InputKind.N s).rows.getD i.val dRow).dummy.y0) ∧
      (∀ (s : HalfSizes) (i : Fin 6),
        ((halfPlacement InputKind.P s).rows.getD (5 - i.val) dRow).dummy =
          mirrorYAt (2 * s.ntapR.y0 - totalDummyH s)
            (((halfPlacement InputKind.N s).rows.getD i.val dRow).dummy)) ∧
      (∀ (s : HalfSizes) (i : Fin 6),
        rowWidth ((halfPlacement InputKind.P s).rows.getD (5 - i.val) dRow) =
          rowWidth ((halfPlacement InputKind.N s).rows.getD i.val dRow)) ∧
      ∀ s : HalfSizes,
        (∀ l : RowLabel, 0 ≤ (rowSizes s l).dummy.h) →
        0 < totalDummyH s →
        ¬ ∃ dx dy : Int, ∀ i : Fin 6,
          ((halfPlacement InputKind.P s).rows.getD (5 - i.val) dRow).dummy =
            translateR
              (((halfPlacement InputKind.N s).rows.getD i.val dRow).dummy)
              dx dy :=
  ⟨rfl, rfl, halfStackN, halfMirrorRows, halfMirrorWidths, halfNoTranslation⟩

/-- Witness for C5 at the concrete size assignment `sW`: its rows have
nonnegative heights of positive total, and the two placements are indeed not
translations of one another there. -/
theorem c5_row_order_mirror_witness :
    (∀ l : RowLabel, 0 ≤ (rowSizes sW l).dummy.h) ∧
      0 < totalDummyH sW ∧
      ¬ ∃ dx dy : Int, ∀ i : Fin 6,
        ((halfPlacement InputKind.P sW).rows.getD (5 - i.val) dRow).dummy =
          translateR
            (((halfPlacement InputKind.N sW).rows.getD i.val dRow).dummy)
            dx dy :=
  ⟨fun l => by cases l <;> decide, by decide,
    c5_row_order_mirror.2.2.2.2.2 sW (fun l => by cases l <;> decide)
      (by decide)⟩
/-- C6: the polarity branch of `StrongArmHalf::tile`.  The branch is
evaluated once — every device's parameters and bulk rail are derived from the
single `polaritySelect` result — and its two cases assign exactly the claimed
kinds, flavors and rails: for input kind N the tail and input-pair devices are
built N-kind with the NMOS flavor and their bulk on the VSS rail, while the
precharge-A/precharge-B/inverter-precharge devices are built P-kind with the
PMOS flavor and their bulk on the VDD rail; for input kind P every one of
these assignments is exactly swapped. -/
theorem c6_polarity_flavor_rail_swap :
    (∀ p : StrongArmParams, halfDevices p = halfDevicesFrom (polaritySelect p) p) ∧
      ∀ (nk pk : MosKind) (w1 w2 w3 w4 w5 : Int),
      polaritySelect (⟨nk, pk, w1, w2, w3, w4, w5, InputKind.N⟩ : StrongArmParams) =
          ⟨TileKind.N, TileKind.P, nk, pk, HNet.vss, HNet.vdd⟩ ∧
      polaritySelect (⟨nk, pk, w1, w2, w3, w4, w5, InputKind.P⟩ : StrongArmParams) =
          ⟨TileKind.P, TileKind.N, pk, nk, HNet.vdd, HNet.vss⟩ ∧
      devOf (⟨nk, pk, w1, w2, w3, w4, w5, InputKind.N⟩ : StrongArmParams) DevName.tailPair0 =
        some ⟨DevName.tailPair0, ⟨nk, TileKind.N, w1⟩,
          [HNet.tailPairSd0, HNet.tailPairSd1], [HNet.tailPairG], HNet.vss⟩ ∧
      devOf (⟨nk, pk, w1, w2, w3, w4, w5, InputKind.N⟩ : StrongArmParams) DevName.tailPair1 =
        some ⟨DevName.tailPair1, ⟨nk, TileKind.N, w1⟩,
          [HNet.tailPairSd0, HNet.tailPairSd1], [HNet.tailPairG], HNet.vss⟩ ∧
      devOf (⟨nk, pk, w1, w2, w3, w4, w5, InputKind.N⟩ : StrongArmParams) DevName.inputPair0 =
        some ⟨DevName.inputPair0, ⟨nk, TileKind.N, w2⟩,
          [HNet.inPairSd0, HNet.inPairSd1], [HNet.inPairG], HNet.vss⟩ ∧
      devOf (⟨nk, pk, w1, w2, w3, w4, w5, InputKind.N⟩ : StrongArmParams) DevName.inputPair1 =
        some ⟨DevName.inputPair1, ⟨nk, TileKind.N, w2⟩,
          [HNet.inPairSd0, HNet.inPairSd1], [HNet.inPairG], HNet.vss⟩ ∧
      devOf (⟨nk, pk, w1, w2, w3, w4, w5, InputKind.N⟩ : StrongArmParams) DevName.invPc0 =
        some ⟨DevName.invPc0, ⟨pk, TileKind.P, w4⟩,
          [HNet.invPcSd0, HNet.invPcSd1], [HNet.invPcG], HNet.vdd⟩ ∧
      devOf (⟨nk, pk, w1, w2, w3, w4, w5, InputKind.N⟩ : StrongArmParams) DevName.invPc1 =
        some ⟨DevName.invPc1, ⟨pk, TileKind.P, w4⟩,
          [HNet.invPcSd0, HNet.invPcSd1], [HNet.invPcG], HNet.vdd⟩ ∧
      devOf (⟨nk, pk, w1, w2, w3, w4, w5, InputKind.N⟩ : StrongArmParams) DevName.pcA0 =
        some ⟨DevName.pcA0, ⟨pk, TileKind.P, w5⟩,
          [HNet.pcASd0], [HNet.pcAG], HNet.vdd⟩ ∧
      devOf (⟨nk, pk, w1, w2, w3, w4, w5, InputKind.N⟩ : StrongArmParams) DevName.pcA1 =
        some ⟨DevName.pcA1, ⟨pk, TileKind.P, w5⟩,
          [HNet.pcASd0], [HNet.pcAG], HNet.vdd⟩ ∧
      devOf (⟨nk, pk, w1, w2, w3, w4, w5, InputKind.N⟩ : StrongArmParams) DevName.pcB0 =
        some ⟨DevName.pcB0, ⟨pk, TileKind.P, w5⟩,
          [HNet.pcBSd0, HNet.pcBSd1], [HNet.pcBG], HNet.vdd⟩ ∧
      devOf (⟨nk, pk, w1, w2, w3, w4, w5, InputKind.N⟩ : StrongArmParams) DevName.pcB1 =
        some ⟨DevName.pcB1, ⟨pk, TileKind.P, w5⟩,
          [HNet.pcBSd0, HNet.pcBSd1], [HNet.pcBG], HNet.vdd⟩ ∧
      devOf (⟨nk, pk, w1, w2, w3, w4, w5, InputKind.P⟩ : StrongArmParams) DevName.tailPair0 =
        some ⟨DevName.tailPair0, ⟨pk, TileKind.P, w1⟩,
          [HNet.tailPairSd0, HNet.tailPairSd1], [HNet.tailPairG], HNet.vdd⟩ ∧
      devOf (⟨nk, pk, w1, w2, w3, w4, w5, InputKind.P⟩ : StrongArmParams) DevName.tailPair1 =
        some ⟨DevName.tailPair1, ⟨pk, TileKind.P, w1⟩,
          [HNet.tailPairSd0, HNet.tailPairSd1], [HNet.tailPairG], HNet.vdd⟩ ∧
      devOf (⟨nk, pk, w1, w2, w3, w4, w5, InputKind.P⟩ : StrongArmParams) DevName.inputPair0 =
        some ⟨DevName.inputPair0, ⟨pk, TileKind.P, w2⟩,
          [HNet.inPairSd0, HNet.inPairSd1], [HNet.inPairG], HNet.vdd⟩ ∧
      devOf (⟨nk, pk, w1, w2, w3, w4, w5, InputKind.P⟩ : StrongArmParams) DevName.inputPair1 =
        some ⟨DevName.inputPair1, ⟨pk, TileKind.P, w2⟩,
          [HNet.inPairSd0, HNet.inPairSd1], [HNet.inPairG], HNet.vdd⟩ ∧
      devOf (⟨nk, pk, w1, w2, w3, w4, w5, InputKind.P⟩ : StrongArmParams) DevName.invPc0 =
        some ⟨DevName.invPc0, ⟨nk, TileKind.N, w4⟩,
          [HNet.invPcSd0, HNet.invPcSd1], [HNet.invPcG], HNet.vss⟩ ∧
      devOf (⟨nk, pk, w1, w2, w3, w4, w5, InputKind.P⟩ : StrongArmParams) DevName.invPc1 =
        some ⟨DevName.invPc1, ⟨nk, TileKind.N, w4⟩,
          [HNet.invPcSd0, HNet.invPcSd1], [HNet.invPcG], HNet.vss⟩ ∧
      devOf (⟨nk, pk, w1, w2, w3, w4, w5, InputKind.P⟩ : StrongArmParams) DevName.pcA0 =
        some ⟨DevName.pcA0, ⟨nk, TileKind.N, w5⟩,
          [HNet.pcASd0], [HNet.pcAG], HNet.vss⟩ ∧
      devOf (⟨nk, pk, w1, w2, w3, w4, w5, InputKind.P⟩ : StrongArmParams) DevName.pcA1 =
        some ⟨DevName.pcA1, ⟨nk, TileKind.N, w5⟩,
          [HNet.pcASd0], [HNet.pcAG], HNet.vss⟩ ∧
      devOf (⟨nk, pk, w1, w2, w3, w4, w5, InputKind.P⟩ : StrongArmParams) DevName.pcB0 =
        some ⟨DevName.pcB0, ⟨nk, TileKind.N, w5⟩,
          [HNet.pcBSd0, HNet.pcBSd1], [HNet.pcBG], HNet.vss⟩ ∧
      devOf (⟨nk, pk, w1, w2, w3, w4, w5, InputKind.P⟩ : StrongArmParams) DevName.pcB1 =
        some ⟨DevName.pcB1, ⟨nk, TileKind.N, w5⟩,
          [HNet.pcBSd0, HNet.pcBSd1], [HNet.pcBG], HNet.vss⟩ := by
  refine ⟨fun p => rfl, fun nk pk w1 w2 w3 w4 w5 => ?_⟩
  exact ⟨rfl, rfl, rfl, rfl, rfl, rfl, rfl, rfl, rfl, rfl, rfl, rfl, rfl, rfl, rfl, rfl, rfl, rfl, rfl, rfl, rfl, rfl⟩

/-- C7: the buffered-latch crossover and buffer placement.  The inner full
latch's differential output is bound to the internal `out` pair; the buffer
whose output is the external negative output takes `out.p` as its input, and
the buffer whose output is the external positive output takes `out.n`
(inversion-compensating crossover); the external output ports take their
layout geometry from those same buffers; the left buffer is reflected
horizontally; and each buffer is vertically centered on the latch, offset
horizontally from it by the `BUFFER_SPACING` constant (right buffer's left
edge at the latch's right edge plus the spacing, left buffer's right edge at
the latch's left edge minus it, with exact vertical centering whenever the
height difference is even). -/
theorem c7_output_buffer_crossover :
    (bufferedSaConn.outputP = BNet.outP ∧ bufferedSaConn.outputN = BNet.outN) ∧
      (bufferedRightBufConn.din = BNet.outP ∧
        bufferedRightBufConn.dout = BNet.ioOutputN) ∧
      (bufferedLeftBufConn.din = BNet.outN ∧
        bufferedLeftBufConn.dout = BNet.ioOutputP) ∧
      (∀ bp : InverterParams,
        (bufferedLeftBuf bp).reflected = true ∧
          (bufferedRightBuf bp).reflected = false ∧
          (bufferedLeftBuf bp).params = bp ∧
          (bufferedRightBuf bp).params = bp) ∧
      bufferedOutputSources =
        [(BNet.ioOutputP, bufferedLeftBufConn),
          (BNet.ioOutputN, bufferedRightBufConn)] ∧
      ∀ (sa buf : Rect) (spacing : Int),
        (bufferedRightRect sa buf spacing).x0 = sa.x1 + spacing ∧
          (bufferedLeftRect sa buf spacing).x1 = sa.x0 - spacing ∧
          (bufferedRightRect sa buf spacing).h = buf.h ∧
          (bufferedLeftRect sa buf spacing).h = buf.h ∧
          ((sa.y0 + sa.y1 - (buf.y0 + buf.y1)) % 2 = 0 →
            (bufferedRightRect sa buf spacing).y0 +
                (bufferedRightRect sa buf spacing).y1 = sa.y0 + sa.y1 ∧
              (bufferedLeftRect sa buf spacing).y0 +
                (bufferedLeftRect sa buf spacing).y1 = sa.y0 + sa.y1) := by
  refine ⟨⟨rfl, rfl⟩, ⟨rfl, rfl⟩, ⟨rfl, rfl⟩,
    fun bp => ⟨rfl, rfl, rfl, rfl⟩, rfl, fun sa buf spacing => ?_⟩
  refine ⟨?_, ?_, ?_, ?_, fun heven => ⟨?_, ?_⟩⟩ <;>
    (simp [bufferedRightRect, bufferedLeftRect, alignToTheRight, alignToTheLeft,
      alignCenterVertical, reflectHoriz, translateR, Rect.w, Rect.h]; try omega)

/-- Witness for C7 at concrete rectangles with matching parity: the latch
`⟨0, 0, 10, 4⟩`, a buffer `⟨0, 0, 2, 2⟩`, spacing 3 — both buffers come out
exactly vertically centered. -/
theorem c7_output_buffer_crossover_witness :
    ((0 : Int) + 4 - ((0 : Int) + 2)) % 2 = 0 ∧
      (bufferedRightRect ⟨0, 0, 10, 4⟩ ⟨0, 0, 2, 2⟩ 3).y0 +
          (bufferedRightRect ⟨0, 0, 10, 4⟩ ⟨0, 0, 2, 2⟩ 3).y1 = 0 + 4 ∧
      (bufferedLeftRect ⟨0, 0, 10, 4⟩ ⟨0, 0, 2, 2⟩ 3).y0 +
          (bufferedLeftRect ⟨0, 0, 10, 4⟩ ⟨0, 0, 2, 2⟩ 3).y1 = 0 + 4 :=
  ⟨by decide,
    ((c7_output_buffer_crossover.2.2.2.2.2 ⟨0, 0, 10, 4⟩ ⟨0, 0, 2, 2⟩
        3).2.2.2.2 (by decide)).1,
    ((c7_output_buffer_crossover.2.2.2.2.2 ⟨0, 0, 10, 4⟩ ⟨0, 0, 2, 2⟩
        3).2.2.2.2 (by decide)).2⟩

/-- C8: the full latch composition.  Both half instances carry the same
parameter record `p`; both are connected through the single `conn` record, so
every external signal (differential input, differential output, clock, both
rails) and the internal `tail_d`/`input_d` nets are one shared parent-level
net per signal; the first half is unreflected, the second reflected
horizontally and aligned immediately to the right of the first (abutting
edges, identical width and vertical extent). -/
theorem c8_two_mirrored_halves :
    (∀ p : StrongArmParams,
        (strongArmLeftHalf p).params = p ∧
          (strongArmRightHalf p).params = p ∧
          (strongArmLeftHalf p).conn = (strongArmRightHalf p).conn ∧
          (strongArmLeftHalf p).conn = strongArmConn ∧
          strongArmConn =
            ⟨FNet.shared HNet.inputP, FNet.shared HNet.inputN,
              FNet.shared HNet.outputP, FNet.shared HNet.outputN,
              FNet.shared HNet.clock, FNet.shared HNet.vdd,
              FNet.shared HNet.vss, FNet.shared HNet.inputDP,
              FNet.shared HNet.inputDN, FNet.shared HNet.tailD⟩ ∧
          (strongArmLeftHalf p).reflected = false ∧
          (strongArmRightHalf p).reflected = true) ∧
      ∀ halfR : Rect,
        (strongArmRightRect halfR).x0 = halfR.x1 ∧
          (strongArmRightRect halfR).w = halfR.w ∧
          (strongArmRightRect halfR).y0 = halfR.y0 ∧
          (strongArmRightRect halfR).y1 = halfR.y1 := by
  refine ⟨fun p => ⟨rfl, rfl, rfl, rfl, rfl, rfl, rfl⟩, fun halfR => ?_⟩
  refine ⟨?_, ?_, ?_, ?_⟩ <;>
    (simp [strongArmRightRect, alignToTheRight, reflectHoriz, translateR,
      Rect.w]; try omega)

/-- Tap connectivity facts at the canonical parameter records, one case per
input kind, established by evaluation. -/
theorem halfTapConnFactsK :
    ∀ k : InputKind,
      connB (halfConnects (paramsK k)) HNet.ptapX HNet.vss = true ∧
        connB (halfConnects (paramsK k)) HNet.ntapX HNet.vdd = true ∧
        connB (halfConnects (paramsK k)) HNet.ptapX HNet.vdd = false ∧
        connB (halfConnects (paramsK k)) HNet.ntapX HNet.vss = false := by
  intro k
  cases k <;> decide

/-- C10: the taps of `StrongArmHalf::tile`.  Regardless of the parameters, the
tile generates exactly one P-kind tap and one N-kind tap (both width 3); the
P tap's terminal is connected to VSS and not VDD, the N tap's to VDD and not
VSS; the layout VDD and VSS ports take their primary geometry from the N tap
and the P tap respectively; and geometrically, for either polarity, the first
row's dummy hangs directly beneath the N tap's bounds (the initial cursor),
the final cursor is the last placed row's dummy, and the P tap is placed
left-aligned directly beneath it. -/
theorem c10_tap_generation_and_placement :
    (halfTaps = [⟨TileKind.P, 3⟩, ⟨TileKind.N, 3⟩] ∧
        (halfTaps.filter (fun t => decide (t.kind = TileKind.P))).length = 1 ∧
        (halfTaps.filter (fun t => decide (t.kind = TileKind.N))).length = 1) ∧
      (∀ p : StrongArmParams,
        connB (halfConnects p) HNet.ptapX HNet.vss = true ∧
          connB (halfConnects p) HNet.ntapX HNet.vdd = true ∧
          connB (halfConnects p) HNet.ptapX HNet.vdd = false ∧
          connB (halfConnects p) HNet.ntapX HNet.vss = false) ∧
      halfLayoutPrimaries =
        [(HalfPort.vdd, ⟨InstName.ntap, TermSel.tapTerm⟩),
          (HalfPort.vss, ⟨InstName.ptap, TermSel.tapTerm⟩)] ∧
      ∀ (k : InputKind) (s : HalfSizes),
        (((halfPlacement k s).rows.getD 0 dRow).dummy.y1 = s.ntapR.y0 ∧
          ((halfPlacement k s).rows.getD 0 dRow).dummy.x0 = s.ntapR.x0) ∧
          (halfPlacement k s).lastCursor =
            ((halfPlacement k s).rows.getD 5 dRow).dummy ∧
          ((halfPlacement k s).ptapPlaced.y1 =
              (halfPlacement k s).lastCursor.y0 ∧
            (halfPlacement k s).ptapPlaced.x0 =
              (halfPlacement k s).lastCursor.x0) := by
  refine ⟨⟨rfl, rfl, rfl⟩, fun p => ?_, rfl, fun k s => ?_⟩
  · obtain ⟨nk, pk, w1, w2, w3, w4, w5, ik⟩ := p
    cases ik
    · exact halfTapConnFactsK InputKind.N
    · exact halfTapConnFactsK InputKind.P
  · cases k <;>
      (simp [halfPlacement, placeRowsList, placeRowsFinal, placeRowCode,
        rowsFor, rowsBase, rowSizes, alignLeft, alignBeneath, alignBottom,
        alignToTheRight, translateR, Rect.w, Rect.h, dRow,
        Rect.mk.injEq]; try omega)
